import Mathlib

/-!
Shallow embedding of the module registry implemented in
`src/share/vm/classfile/modules.cpp` (the operations
`Modules::define_module`, `Modules::add_module_exports`,
`Modules::add_reads_module`, `Modules::add_module_package`,
`Modules::can_read_module`, `Modules::is_exported_to_module` and
`Modules::get_module`), together with theorems checking the design
document against the code.

Modelling conventions:
* A `jobject` / `jstring` argument is an `Option` (`none` is the null
  handle).  A non-null `jobject` referring to a `java.lang.reflect.Module`
  object is an index into a managed heap `jheap`; object identity is
  index equality.
* `ModuleEntry` / `PackageEntry` values live in global lists `modTab` /
  `pkgTab`; the per-loader hash tables of the source are views filtered
  by the `loader` field.  Entry (pointer) identity is index equality.
* Exceptions (`THROW_MSG` of `IllegalArgumentException`) become
  `Except.error msg`; mutators return the resulting state next to the
  `Except`, so that an aborted operation still yields a state.
* `SymbolTable` interning maps equal strings to the same symbol, so
  symbols are plain `String`s compared with `=`.
* The name-legality collaborators (`Symbol::max_length`,
  `UTF8::is_legal_utf8`, `ClassFileParser::verify_unqualified_name`) are
  not part of this file of the repository; they are abstracted into an
  environment of boolean predicates.
* The single `Module_lock` serialises every operation, so each operation
  is one atomic state transformation; tracing (`TraceModules` /
  `TracePackages`) is modelled only where it can change observable
  behaviour, namely the unguarded dereference of the target module entry
  in `is_exported_to_module`.
-/

namespace Modules

/-- A `java.lang.reflect.Module` object on the managed heap: its `loader`
field (`none` is the boot loader) and its name.  Heap indices play the
role of object identity. -/
structure JModuleObj where
  loader : Option Nat
  name : String
  deriving DecidableEq

/-- A `ModuleEntry` of the loader's `ModuleEntryTable`: the reflective
object (`jmod`, a heap index), the interned module name, the owning
loader and the read set.  `reads` holds indices of module entries;
modelled from the spec (`moduleEntry.hpp` is an external collaborator):
a set of module-entry references. -/
structure ModuleEntry where
  jmod : Nat
  name : String
  loader : Option Nat
  reads : List Nat
  deriving DecidableEq

/-- A `PackageEntry` of the loader's `PackageEntryTable`: interned name,
owning loader, back-reference to the owning module entry (an index into
`modTab`), the qualified export set and the unqualified-export flag.
Modelled from the spec (`packageEntry.hpp` is an external collaborator):
`exports` is a set of module-entry references where `none` stands for
the unnamed-module target. -/
structure PackageEntry where
  name : String
  loader : Option Nat
  module : Nat
  exports : List (Option Nat)
  unqual_exported : Bool
  deriving DecidableEq

/-- The registry state: the managed heap of reflective module objects
and the two tables (all loaders pooled; the `loader` fields partition
them into the per-loader tables of the source). -/
structure State where
  jheap : List JModuleObj
  modTab : List ModuleEntry
  pkgTab : List PackageEntry
  deriving DecidableEq

/-- Modelled from the spec: the name-legality collaborators
(`verify_unqualified_name` in module mode and class mode combined with
the length and UTF-8 checks of `verify_module_name` /
`verify_package_name`) as abstract boolean predicates. -/
structure Env where
  legalModule : String → Bool
  legalPackage : String → Bool

/-- `lookup_only` on a list-backed table: the first entry satisfying the
predicate, together with its index (the index is the entry's pointer
identity). -/
def lookupIdx (p : α → Bool) : List α → Option (Nat × α)
  | [] => none
  | a :: as =>
    if p a then some (0, a)
    else (lookupIdx p as).map (fun x => (x.1 + 1, x.2))

/-- `PackageEntryTable::lookup_only` of loader `L` for name `pkg`:
matches on the owning loader and the interned name, regardless of the
owning module. -/
def pkgLookup (st : State) (L : Option Nat) (pkg : String) : Option (Nat × PackageEntry) :=
  lookupIdx (fun pe => decide (pe.loader = L ∧ pe.name = pkg)) st.pkgTab

/-- `ModuleEntryTable::lookup_only(Symbol*)` of loader `L`: lookup of a
module entry by interned name. -/
def modLookupByName (st : State) (L : Option Nat) (mn : String) : Option (Nat × ModuleEntry) :=
  lookupIdx (fun e => decide (e.loader = L ∧ e.name = mn)) st.modTab

/-- `get_module_entry(jobject)`: resolve the handle to the reflective
object, read its loader field, and look the entry up in that loader's
module table by identity of the reflective object. -/
def get_module_entry (st : State) (m : Nat) : Option (Nat × ModuleEntry) :=
  match st.jheap.get? m with
  | none => none
  | some obj => lookupIdx (fun e => decide (e.loader = obj.loader ∧ e.jmod = m)) st.modTab

/-- Resolution of the `to_module` argument shared by
`add_module_exports` and `is_exported_to_module`: a null handle denotes
the unnamed module (`none`); a non-null handle must resolve to a known
entry. -/
def get_to_module_entry (st : State) (to_module : Option Nat) : Except String (Option Nat) :=
  match to_module with
  | none => Except.ok none
  | some tj =>
    match get_module_entry st tj with
    | none => Except.error "to_module is invalid"
    | some x => Except.ok (some x.1)

/-- Modelled from the spec: `ModuleEntry::can_read` is membership of the
target entry in the read set. -/
def ModuleEntry.can_read (e : ModuleEntry) (t : Nat) : Bool :=
  decide (t ∈ e.reads)

/-- Modelled from the spec: `ModuleEntry::add_read` appends the target
entry to the read set of entry `fi`. -/
def add_read (st : State) (fi ti : Nat) : State :=
  match st.modTab.get? fi with
  | none => st
  | some e => { st with modTab := st.modTab.set fi { e with reads := e.reads ++ [ti] } }

/-- Modelled from the spec: `PackageEntry::is_qexported_to` is
membership of the target in the qualified export set. -/
def PackageEntry.is_qexported_to (pe : PackageEntry) (m : Option Nat) : Bool :=
  decide (m ∈ pe.exports)

/-- Modelled from the spec: `PackageEntry::set_exported(to)` adds the
target (possibly the unnamed-module sentinel `none`) to the export set
of package entry `pi`; the unqualified flag is established externally
and is not touched here. -/
def set_exported (st : State) (pi : Nat) (toE : Option Nat) : State :=
  match st.pkgTab.get? pi with
  | none => st
  | some pe => { st with pkgTab := st.pkgTab.set pi { pe with exports := pe.exports ++ [toE] } }

/-- `Modules::can_read_module`.  The trace block only runs after both
entries resolved, and both dereferences are guarded non-null, so tracing
cannot change behaviour and is omitted. -/
def can_read_module (st : State) (asking_module target_module : Option Nat) :
    Except String Bool :=
  match asking_module with
  | none => Except.error "asking_module is null"
  | some aj =>
    match get_module_entry st aj with
    | none => Except.error "asking_module is invalid"
    | some a =>
      match target_module with
      | none => Except.ok true
      | some tj =>
        match get_module_entry st tj with
        | none => Except.error "target_module is invalid"
        | some t =>
          if a.1 = t.1 then Except.ok true
          else Except.ok (a.2.can_read t.1)

/-- Result of `Modules::is_exported_to_module`: a boolean, an
`IllegalArgumentException`, or a crash (dereference of a null
`ModuleEntry*`). -/
inductive JResult (α : Type) where
  | ok (a : α)
  | err (msg : String)
  | crash
  deriving DecidableEq

/-- `Modules::is_exported_to_module`.  `tracePackages` is the
`TracePackages` flag: the trace block prints
`to_module_entry->name()` without a null guard, so with the flag on and
a null `to_module` the dereference of the null entry is a crash. -/
def is_exported_to_module (env : Env) (tracePackages : Bool) (st : State)
    (from_module : Option Nat) (package : Option String) (to_module : Option Nat) :
    JResult Bool :=
  match package with
  | none => JResult.err "package is null"
  | some pkg =>
    match from_module with
    | none => JResult.err "from_module is null"
    | some fj =>
      match get_module_entry st fj with
      | none => JResult.err "from_module is invalid"
      | some f =>
        match get_to_module_entry st to_module with
        | Except.error e => JResult.err e
        | Except.ok toE =>
          if ¬ env.legalPackage pkg then
            JResult.err ("Bad exported package name, module " ++ f.2.name)
          else
            match pkgLookup st f.2.loader pkg with
            | none => JResult.err ("Package not found in from_module: " ++ f.2.name)
            | some p =>
              if p.2.module ≠ f.1 then
                JResult.err ("Package: " ++ pkg ++ " found in another module, not in from_module: " ++ f.2.name)
              else if tracePackages ∧ toE = none then
                JResult.crash
              else
                JResult.ok (p.2.unqual_exported
                  || decide (some f.1 = toE)
                  || (to_module.isSome && p.2.is_qexported_to toE))

/-- `Modules::add_module_exports`.  The trace block guards the target
dereference with a null check, so tracing cannot change behaviour and is
omitted. -/
def add_module_exports (env : Env) (st : State)
    (from_module : Option Nat) (package : Option String) (to_module : Option Nat) :
    Except String Unit × State :=
  match package with
  | none => (Except.error "package is null", st)
  | some pkg =>
    match from_module with
    | none => (Except.error "from_module is null", st)
    | some fj =>
      match get_module_entry st fj with
      | none => (Except.error "from_module cannot be found", st)
      | some f =>
        match get_to_module_entry st to_module with
        | Except.error e => (Except.error e, st)
        | Except.ok toE =>
          if ¬ env.legalPackage pkg then
            (Except.error ("Bad package for module " ++ f.2.name), st)
          else
            match pkgLookup st f.2.loader pkg with
            | none =>
              (Except.error ("Package " ++ pkg ++ " not found in from_module " ++ f.2.name), st)
            | some p =>
              if p.2.module ≠ f.1 then
                (Except.error ("Package: " ++ pkg ++ " found in another module, not in from_module: " ++ f.2.name), st)
              else if to_module.isSome ∧ p.2.unqual_exported then
                (Except.error ("Bad qualifed export, package " ++ pkg ++ " in module " ++ f.2.name ++ " is already unqualifically exported"), st)
              else if decide (some f.1 = toE) then
                (Except.ok (), st)
              else
                (Except.ok (), set_exported st p.1 toE)

/-- `Modules::add_reads_module`.  Both trace dereferences happen after
both entries resolved non-null, so tracing is omitted. -/
def add_reads_module (st : State) (from_module to_module : Option Nat) :
    Except String Unit × State :=
  match from_module with
  | none => (Except.error "from_module is null", st)
  | some fj =>
    match to_module with
    | none => (Except.error "to_module is null", st)
    | some tj =>
      match get_module_entry st fj with
      | none => (Except.error "from_module is invalid", st)
      | some f =>
        match get_module_entry st tj with
        | none => (Except.error "to_module is invalid", st)
        | some t =>
          if f.1 = t.1 then (Except.ok (), st)
          else (Except.ok (), add_read st f.1 t.1)

/-- `Modules::add_module_package`.  The duplicate check and the insert
run under `Module_lock`; the exception for an existing package is thrown
after the lock is released, which is observationally the same. -/
def add_module_package (env : Env) (st : State)
    (module : Option Nat) (package : Option String) :
    Except String Unit × State :=
  match module with
  | none => (Except.error "module is null", st)
  | some jm =>
    match package with
    | none => (Except.error "package is null", st)
    | some pkg =>
      match get_module_entry st jm with
      | none => (Except.error "module is invalid", st)
      | some m =>
        if ¬ env.legalPackage pkg then
          (Except.error ("Invalid package name: " ++ pkg), st)
        else
          match pkgLookup st m.2.loader pkg with
          | some _ => (Except.error ("Package " ++ pkg ++ " already exists for class loader"), st)
          | none =>
            (Except.ok (), { st with pkgTab := st.pkgTab ++ [⟨pkg, m.2.loader, m.1, [], false⟩] })

/-- The `loader` argument of `define_module`: the null handle (boot
loader), an instance of a `java.lang.ClassLoader` subclass with the
given identity, or an object that is not a class loader. -/
inductive LoaderArg where
  | nullL
  | goodL (id : Nat)
  | badL
  deriving DecidableEq

/-- The per-element loop of `define_module` over the `packages` array:
reject a null or non-string element (`none`), reject an illegal name,
and reject the first duplicate within the input list
(`append_if_missing`), accumulating the interned package list. -/
def build_pkg_list (env : Env) (module_name : String) :
    List (Option String) → List String → Except String (List String)
  | [], acc => Except.ok acc
  | none :: _, _ => Except.error ("Bad package name for module: " ++ module_name)
  | some p :: rest, acc =>
    if ¬ env.legalPackage p then
      Except.error ("Invalid package name: " ++ p ++ " for module: " ++ module_name)
    else if p ∈ acc then
      Except.error ("Duplicate package name: " ++ p ++ " for module " ++ module_name)
    else build_pkg_list env module_name rest (acc ++ [p])

/-- The pre-lock validation phase of `Modules::define_module`: null and
legality checks on the module name, the reserved name `java.base`, the
package-element loop, and the loader-type check, in source order.  It
returns the module name, the package list and the loader identity, and
touches no state. -/
def define_validate (env : Env) (name : Option String) (loader : LoaderArg)
    (packages : Option (List (Option String))) :
    Except String (String × List String × Option Nat) :=
  match name with
  | none => Except.error "Null module name"
  | some module_name =>
    if ¬ env.legalModule module_name then
      Except.error ("Invalid module name: " ++ module_name)
    else if module_name = "java.base" then
      Except.error "Module java.base is already defined"
    else
      match build_pkg_list env module_name (packages.getD []) [] with
      | Except.error e => Except.error e
      | Except.ok pkg_list =>
        match loader with
        | LoaderArg.badL => Except.error "Class loader is not a subclass of java.lang.ClassLoader"
        | LoaderArg.nullL => Except.ok (module_name, pkg_list, none)
        | LoaderArg.goodL i => Except.ok (module_name, pkg_list, some i)

/-- `Modules::define_module`.  After validation the reflective
`java.lang.reflect.Module` object is created (the heap grows even if a
later check aborts); under `Module_lock` the package-duplicate scan with
its module-name tie-break runs, then `locked_create_entry_or_null`
inserts the module entry (null if the name already exists), then the
package entries are inserted pointing at the new module entry.  The
boot-path extension for a null loader is a filesystem side effect
outside the registry and is not modelled. -/
def define_module (env : Env) (st : State) (name : Option String) (loader : LoaderArg)
    (packages : Option (List (Option String))) : Except String Nat × State :=
  match define_validate env name loader packages with
  | Except.error e => (Except.error e, st)
  | Except.ok (module_name, pkg_list, L) =>
    let jm := st.jheap.length
    let st1 : State := { st with jheap := st.jheap ++ [⟨L, module_name⟩] }
    match pkg_list.find? (fun p => (pkgLookup st1 L p).isSome) with
    | some p =>
      if (modLookupByName st1 L module_name).isSome then
        (Except.error ("Module " ++ module_name ++ " is already defined"), st1)
      else
        (Except.error ("Package " ++ p ++ " for module " ++ module_name ++ " already exists for class loader"), st1)
    | none =>
      if (modLookupByName st1 L module_name).isSome then
        (Except.error ("Module " ++ module_name ++ " is already defined"), st1)
      else
        let mi := st1.modTab.length
        let st2 : State := { st1 with modTab := st1.modTab ++ [⟨jm, module_name, L, []⟩] }
        let st3 : State := { st2 with pkgTab := st2.pkgTab ++ pkg_list.map (fun p => ⟨p, L, mi, [], false⟩) }
        (Except.ok jm, st3)

/-- A `Klass`: an instance klass, an object-array klass with its element
klass, or a type-array (primitive-element) klass.  Each klass carries
the `module` field of its `java.lang.Class` mirror (heap data maintained
externally; `none` is a null module reference). -/
inductive Klass where
  | instanceK (module : Option Nat)
  | objArrayK (module : Option Nat) (element : Klass)
  | typeArrayK (module : Option Nat)
  deriving DecidableEq

/-- `ObjArrayKlass::bottom_klass`: the klass of the ultimate
non-object-array element (set at array-klass creation). -/
def bottom_klass : Klass → Klass
  | Klass.objArrayK _ e => bottom_klass e
  | Klass.instanceK m => Klass.instanceK m
  | Klass.typeArrayK m => Klass.typeArrayK m

/-- `java_lang_Class::module(k->java_mirror())`: the `module` field of
the klass's mirror. -/
def java_mirror_module : Klass → Option Nat
  | Klass.instanceK m => m
  | Klass.objArrayK m _ => m
  | Klass.typeArrayK m => m

/-- A class mirror argument of `get_module`: either a primitive-type
mirror or the mirror of a klass. -/
inductive ClassMirror where
  | primitiveM
  | klassM (k : Klass)
  deriving DecidableEq

/-- `Modules::get_module`: null mirror, primitive mirror or disabled
modules feature give null; an instance klass gives its mirror's module
field; an object-array klass gives the module of its bottom klass's
mirror; a type-array klass gives null.  The trace block guards its
dereference, so tracing is omitted.  The function is total: no path
raises. -/
def get_module (useModules : Bool) (clazz : Option ClassMirror) : Option Nat :=
  match clazz with
  | none => none
  | some ClassMirror.primitiveM => none
  | some (ClassMirror.klassM k) =>
    if ¬ useModules then none
    else
      match k with
      | Klass.instanceK m => m
      | Klass.objArrayK m e => java_mirror_module (bottom_klass (Klass.objArrayK m e))
      | Klass.typeArrayK _ => none

/-- `pkgLookup` reads only the package table, so it is unaffected by a
heap extension. -/
theorem pkgLookup_jheap (st : State) (h : List JModuleObj) (L : Option Nat) (s : String) :
    pkgLookup { st with jheap := h } L s = pkgLookup st L s := rfl

/-- `modLookupByName` reads only the module table, so it is unaffected
by a heap extension. -/
theorem modLookupByName_jheap (st : State) (h : List JModuleObj) (L : Option Nat) (s : String) :
    modLookupByName { st with jheap := h } L s = modLookupByName st L s := rfl

/-- A failed table probe means no entry satisfies the probe's
predicate. -/
theorem lookupIdx_eq_none {p : α → Bool} :
    ∀ {l : List α}, lookupIdx p l = none → ∀ a ∈ l, p a = false := by
  intro l
  induction l with
  | nil => intro _ a ha; cases ha
  | cons x xs ih =>
    intro h a ha
    unfold lookupIdx at h
    by_cases hx : p x = true
    · simp [hx] at h
    · simp only [Bool.not_eq_true] at hx
      simp only [hx, Bool.false_eq_true, if_false] at h
      cases hxs : lookupIdx p xs with
      | some y => rw [hxs] at h; simp at h
      | none =>
        cases ha with
        | head => exact hx
        | tail _ hmem => exact ih hxs a hmem

/-- Package-name uniqueness within each loader: no two entries of the
package table share a loader and a name (design invariant 1). -/
def loaderUniq (l : List PackageEntry) : Prop :=
  l.Pairwise (fun a b => a.loader = b.loader → a.name ≠ b.name)

/-- An environment accepting every name, used to instantiate theorems
with hypotheses. -/
def envW : Env := ⟨fun _ => true, fun _ => true⟩

/-- A concrete registry used to instantiate theorems with hypotheses:
boot modules m1 and m2, package p owned by m1 (not exported), package q
owned by m1 and unqualifiedly exported. -/
def stW : State :=
  ⟨[⟨none, "m1"⟩, ⟨none, "m2"⟩],
   [⟨0, "m1", none, []⟩, ⟨1, "m2", none, []⟩],
   [⟨"p", none, 0, [], false⟩, ⟨"q", none, 0, [], true⟩]⟩

/-- C2: for a non-null `asking_module` resolving to a known entry,
`can_read_module` returns true for a null target; for a target that
resolves to a known entry it returns true iff the entries are equal or
the target is in the asking entry's read set; and the self query
`can_read(M, M)` is true whatever the read set holds. -/
theorem c2_can_read_module_spec (st : State) (aj ai : Nat) (ae : ModuleEntry)
    (h : get_module_entry st aj = some (ai, ae)) :
    can_read_module st (some aj) none = Except.ok true
    ∧ (∀ tj ti te, get_module_entry st tj = some (ti, te) →
        (can_read_module st (some aj) (some tj) = Except.ok true ↔ (ai = ti ∨ ti ∈ ae.reads)))
    ∧ can_read_module st (some aj) (some aj) = Except.ok true := by
  refine ⟨?_, ?_, ?_⟩
  · simp only [can_read_module, h]
  · intro tj ti te ht
    simp only [can_read_module, h, ht]
    by_cases he : ai = ti
    · simp [he]
    · simp [he, ModuleEntry.can_read]
  · simp only [can_read_module, h]
    simp

/-- Witness for C2 at the concrete registry. -/
theorem c2_can_read_module_spec_witness :
    get_module_entry stW 0 = some (0, ⟨0, "m1", none, []⟩)
    ∧ (can_read_module stW (some 0) none = Except.ok true
        ∧ (∀ tj ti te, get_module_entry stW tj = some (ti, te) →
            (can_read_module stW (some 0) (some tj) = Except.ok true
              ↔ (0 = ti ∨ ti ∈ ([] : List Nat))))
        ∧ can_read_module stW (some 0) (some 0) = Except.ok true) :=
  ⟨rfl, c2_can_read_module_spec stW 0 0 ⟨0, "m1", none, []⟩ rfl⟩

/-- C1: for a known `from_module`, a legal package name whose entry is
owned by `from_module`, and a `to_module` that is null or known,
`is_exported_to_module` (trace off) returns true iff the package is
unqualifiedly exported, or the two modules are the same entry, or the
target is non-null and its entry is in the package's qualified export
set; when the package is unqualifiedly exported the result is true for
every such target, the null one included. -/
theorem c1_is_exported_to_module_spec (env : Env) (st : State)
    (fj fi : Nat) (fe : ModuleEntry) (to_module toE : Option Nat)
    (pkg : String) (pi : Nat) (pe : PackageEntry)
    (hf : get_module_entry st fj = some (fi, fe))
    (ht : get_to_module_entry st to_module = Except.ok toE)
    (hl : env.legalPackage pkg = true)
    (hp : pkgLookup st fe.loader pkg = some (pi, pe))
    (ho : pe.module = fi) :
    (is_exported_to_module env false st (some fj) (some pkg) to_module = JResult.ok true
      ↔ (pe.unqual_exported = true ∨ some fi = toE
          ∨ (to_module.isSome = true ∧ toE ∈ pe.exports)))
    ∧ (pe.unqual_exported = true →
        is_exported_to_module env false st (some fj) (some pkg) to_module = JResult.ok true) := by
  have hmain : is_exported_to_module env false st (some fj) (some pkg) to_module
      = JResult.ok (pe.unqual_exported || decide (some fi = toE)
          || (to_module.isSome && pe.is_qexported_to toE)) := by
    simp only [is_exported_to_module, hf, ht, hl, hp]
    simp [ho]
  constructor
  · rw [hmain]
    simp [PackageEntry.is_qexported_to, or_assoc]
  · intro hu
    rw [hmain, hu]
    simp

/-- Witness for C1 at the concrete registry: package q of m1 is
unqualifiedly exported, the target is the null (unnamed) module. -/
theorem c1_is_exported_to_module_spec_witness :
    get_module_entry stW 0 = some (0, ⟨0, "m1", none, []⟩)
    ∧ get_to_module_entry stW none = Except.ok none
    ∧ envW.legalPackage "q" = true
    ∧ pkgLookup stW none "q" = some (1, ⟨"q", none, 0, [], true⟩)
    ∧ (⟨"q", none, 0, [], true⟩ : PackageEntry).module = 0
    ∧ ((is_exported_to_module envW false stW (some 0) (some "q") none = JResult.ok true
        ↔ ((⟨"q", none, 0, [], true⟩ : PackageEntry).unqual_exported = true ∨ some 0 = (none : Option Nat)
            ∨ ((none : Option Nat).isSome = true ∧ (none : Option Nat) ∈ (⟨"q", none, 0, [], true⟩ : PackageEntry).exports)))
      ∧ ((⟨"q", none, 0, [], true⟩ : PackageEntry).unqual_exported = true →
          is_exported_to_module envW false stW (some 0) (some "q") none = JResult.ok true)) :=
  ⟨rfl, rfl, rfl, rfl, rfl,
    c1_is_exported_to_module_spec envW stW 0 0 ⟨0, "m1", none, []⟩ none none "q" 1
      ⟨"q", none, 0, [], true⟩ rfl rfl rfl rfl rfl⟩

/-- C7: with the validity checks passing (known `from_module`, legal
package name, package entry owned by it, package not unqualifiedly
exported), the self edges `add_reads_module(M, M)` and
`add_module_exports(M, p, M)` succeed and return the state unchanged —
nothing is stored — while `can_read(M, M)` and
`is_exported_to(M, p, M)` both return true. -/
theorem c7_self_edges_noops (env : Env) (st : State)
    (fj fi : Nat) (fe : ModuleEntry) (pkg : String) (pi : Nat) (pe : PackageEntry)
    (hf : get_module_entry st fj = some (fi, fe))
    (hl : env.legalPackage pkg = true)
    (hp : pkgLookup st fe.loader pkg = some (pi, pe))
    (ho : pe.module = fi)
    (hu : pe.unqual_exported = false) :
    add_reads_module st (some fj) (some fj) = (Except.ok (), st)
    ∧ can_read_module st (some fj) (some fj) = Except.ok true
    ∧ add_module_exports env st (some fj) (some pkg) (some fj) = (Except.ok (), st)
    ∧ is_exported_to_module env false st (some fj) (some pkg) (some fj) = JResult.ok true := by
  refine ⟨?_, ?_, ?_, ?_⟩
  · simp only [add_reads_module, hf]
    simp
  · simp only [can_read_module, hf]
    simp
  · simp only [add_module_exports, get_to_module_entry, hf, hl, hp]
    simp [ho, hu]
  · simp only [is_exported_to_module, get_to_module_entry, hf, hl, hp]
    simp [ho, hu]

/-- Witness for C7 at the concrete registry: module m1 and its package
p. -/
theorem c7_self_edges_noops_witness :
    get_module_entry stW 0 = some (0, ⟨0, "m1", none, []⟩)
    ∧ envW.legalPackage "p" = true
    ∧ pkgLookup stW none "p" = some (0, ⟨"p", none, 0, [], false⟩)
    ∧ (⟨"p", none, 0, [], false⟩ : PackageEntry).module = 0
    ∧ (⟨"p", none, 0, [], false⟩ : PackageEntry).unqual_exported = false
    ∧ (add_reads_module stW (some 0) (some 0) = (Except.ok (), stW)
        ∧ can_read_module stW (some 0) (some 0) = Except.ok true
        ∧ add_module_exports envW stW (some 0) (some "p") (some 0) = (Except.ok (), stW)
        ∧ is_exported_to_module envW false stW (some 0) (some "p") (some 0) = JResult.ok true) :=
  ⟨rfl, rfl, rfl, rfl, rfl,
    c7_self_edges_noops envW stW 0 0 ⟨0, "m1", none, []⟩ "p" 0 ⟨"p", none, 0, [], false⟩
      rfl rfl rfl rfl rfl⟩

/-- C8: for a known module and a legal package name,
`add_module_package` fails with the package-exists message and an
unchanged state when the loader's package table already holds the name
(whoever owns it), and otherwise appends exactly one entry whose module
back-reference is the given module, preserving package-name uniqueness
within the loader. -/
theorem c8_add_module_package_spec (env : Env) (st : State)
    (jm mi : Nat) (me : ModuleEntry) (pkg : String)
    (hm : get_module_entry st jm = some (mi, me))
    (hl : env.legalPackage pkg = true) :
    (∀ x, pkgLookup st me.loader pkg = some x →
        add_module_package env st (some jm) (some pkg)
          = (Except.error ("Package " ++ pkg ++ " already exists for class loader"), st))
    ∧ (pkgLookup st me.loader pkg = none →
        add_module_package env st (some jm) (some pkg)
          = (Except.ok (), { st with pkgTab := st.pkgTab ++ [⟨pkg, me.loader, mi, [], false⟩] })
        ∧ (loaderUniq st.pkgTab →
            loaderUniq (st.pkgTab ++ [⟨pkg, me.loader, mi, [], false⟩]))) := by
  constructor
  · intro x hx
    simp only [add_module_package, hm, hl, hx]
    simp
  · intro hn
    constructor
    · simp only [add_module_package, hm, hl, hn]
      simp
    · intro hu
      unfold loaderUniq at hu ⊢
      rw [List.pairwise_append]
      refine ⟨hu, List.pairwise_singleton _ _, ?_⟩
      intro a ha b hb
      simp only [List.mem_singleton] at hb
      subst hb
      intro hload hname
      simp only [pkgLookup] at hn
      have hfalse := lookupIdx_eq_none hn a ha
      simp only [decide_eq_false_iff_not] at hfalse
      exact hfalse ⟨hload, hname⟩

/-- Witness for C8 at the concrete registry: module m2 with the fresh
package name r (no collision) — both conjuncts of the conclusion are
obtained. -/
theorem c8_add_module_package_spec_witness :
    get_module_entry stW 1 = some (1, ⟨1, "m2", none, []⟩)
    ∧ envW.legalPackage "r" = true
    ∧ ((∀ x, pkgLookup stW none "r" = some x →
          add_module_package envW stW (some 1) (some "r")
            = (Except.error ("Package " ++ "r" ++ " already exists for class loader"), stW))
        ∧ (pkgLookup stW none "r" = none →
            add_module_package envW stW (some 1) (some "r")
              = (Except.ok (), { stW with pkgTab := stW.pkgTab ++ [⟨"r", none, 1, [], false⟩] })
            ∧ (loaderUniq stW.pkgTab →
                loaderUniq (stW.pkgTab ++ [⟨"r", none, 1, [], false⟩])))) :=
  ⟨rfl, rfl, c8_add_module_package_spec envW stW 1 1 ⟨1, "m2", none, []⟩ "r" rfl rfl⟩

/-- C5: with `TracePackages` off, `is_exported_to_module` on a valid
package of m1 with a null target returns false; with `TracePackages` on,
the same call reaches the unguarded `to_module_entry->name()` with a
null entry and crashes — the trace flag changes observable behaviour on
exactly this input. -/
theorem c5_trace_null_target_crash :
    is_exported_to_module envW true stW (some 0) (some "p") none = JResult.crash
    ∧ is_exported_to_module envW false stW (some 0) (some "p") none = JResult.ok false := by
  exact ⟨rfl, rfl⟩

/-- C6: defining a module named java.base fails (either at the legality
check or at the reserved-name check, both before any mutation) and
leaves the whole registry state unchanged, for every environment,
loader and package list. -/
theorem c6_define_module_java_base_rejected (env : Env) (st : State)
    (loader : LoaderArg) (packages : Option (List (Option String))) :
    (∃ msg, (define_module env st (some "java.base") loader packages).1 = Except.error msg)
    ∧ (define_module env st (some "java.base") loader packages).2 = st := by
  unfold define_module define_validate
  cases h : env.legalModule "java.base" <;> simp [h]

/-- C3: `define_module` is atomic on failure: whenever it returns an
error — null or invalid name, java.base, bad package element, duplicate
package within the input, bad loader, package already in the loader's
package table, or module name already defined — the module table and
the package table of the resulting state are those of the initial
state, so no query can observe the rejected module or its packages. -/
theorem c3_define_module_atomic (env : Env) (st : State)
    (name : Option String) (loader : LoaderArg)
    (packages : Option (List (Option String))) (e : String) :
    (define_module env st name loader packages).1 = Except.error e →
    ((define_module env st name loader packages).2).modTab = st.modTab
    ∧ ((define_module env st name loader packages).2).pkgTab = st.pkgTab := by
  cases hv : define_validate env name loader packages with
  | error e2 =>
    simp only [define_module, hv]
    intro _
    constructor <;> trivial
  | ok tup =>
    obtain ⟨mn, pkgs, L⟩ := tup
    simp only [define_module, hv]
    split
    · split
      · intro _
        constructor <;> trivial
      · intro _
        constructor <;> trivial
    · split
      · intro _
        constructor <;> trivial
      · intro hx
        simp at hx

/-- Witness for C3: defining m3 with package p collides with the
existing package p of the concrete registry; the tables are
unchanged. -/
theorem c3_define_module_atomic_witness :
    (define_module envW stW (some "m3") LoaderArg.nullL (some [some "p"])).1
      = Except.error ("Package " ++ "p" ++ " for module " ++ "m3" ++ " already exists for class loader")
    ∧ (((define_module envW stW (some "m3") LoaderArg.nullL (some [some "p"])).2).modTab = stW.modTab
        ∧ ((define_module envW stW (some "m3") LoaderArg.nullL (some [some "p"])).2).pkgTab = stW.pkgTab) :=
  ⟨rfl,
    c3_define_module_atomic envW stW (some "m3") LoaderArg.nullL (some [some "p"])
      ("Package " ++ "p" ++ " for module " ++ "m3" ++ " already exists for class loader") rfl⟩

/-- C4: when the duplicate-package scan of `define_module` hits an
existing package, the error names the module duplication when a module
of the requested name already exists in the loader's module table, and
names the package duplication otherwise. -/
theorem c4_define_module_tie_break (env : Env) (st : State)
    (name : Option String) (loader : LoaderArg) (packages : Option (List (Option String)))
    (mn : String) (pkgs : List String) (L : Option Nat) (p : String)
    (hv : define_validate env name loader packages = Except.ok (mn, pkgs, L))
    (hp : pkgs.find? (fun q => (pkgLookup st L q).isSome) = some p) :
    ((modLookupByName st L mn).isSome = true →
        (define_module env st name loader packages).1
          = Except.error ("Module " ++ mn ++ " is already defined"))
    ∧ (modLookupByName st L mn = none →
        (define_module env st name loader packages).1
          = Except.error ("Package " ++ p ++ " for module " ++ mn ++ " already exists for class loader")) := by
  constructor
  · intro hm
    simp only [define_module, hv, pkgLookup_jheap, modLookupByName_jheap, hp, hm]
    simp
  · intro hm
    simp only [define_module, hv, pkgLookup_jheap, modLookupByName_jheap, hp, hm]
    simp

/-- Witness for C4: defining m3 with package p on the concrete registry
collides with the existing package p; no module m3 exists, so the error
names the package duplication. -/
theorem c4_define_module_tie_break_witness :
    define_validate envW (some "m3") LoaderArg.nullL (some [some "p"])
      = Except.ok ("m3", ["p"], none)
    ∧ ["p"].find? (fun q => (pkgLookup stW none q).isSome) = some "p"
    ∧ (((modLookupByName stW none "m3").isSome = true →
          (define_module envW stW (some "m3") LoaderArg.nullL (some [some "p"])).1
            = Except.error ("Module " ++ "m3" ++ " is already defined"))
        ∧ (modLookupByName stW none "m3" = none →
            (define_module envW stW (some "m3") LoaderArg.nullL (some [some "p"])).1
              = Except.error ("Package " ++ "p" ++ " for module " ++ "m3" ++ " already exists for class loader"))) :=
  ⟨rfl, rfl,
    c4_define_module_tie_break envW stW (some "m3") LoaderArg.nullL (some [some "p"])
      "m3" ["p"] none "p" rfl rfl⟩

/-- C9: `get_module` is a total function (it raises on no input); it
returns null whenever the modules feature is disabled and on a
primitive-type mirror, and on an object-array mirror it returns the
`module` field of the mirror of the array's bottom klass. -/
theorem c9_get_module_cases :
    (∀ clazz, get_module false clazz = none)
    ∧ (∀ u, get_module u (some ClassMirror.primitiveM) = none)
    ∧ (∀ m e, get_module true (some (ClassMirror.klassM (Klass.objArrayK m e)))
        = java_mirror_module (bottom_klass (Klass.objArrayK m e))) := by
  refine ⟨?_, ?_, ?_⟩
  · intro clazz
    cases clazz with
    | none => rfl
    | some c =>
      cases c with
      | primitiveM => rfl
      | klassM k => simp [get_module]
  · intro u
    cases u <;> rfl
  · intro m e
    rfl

/-- C10: on the mirror of a type-array klass (an array of primitive
type), `get_module` returns null without recursing and without
raising, whatever the modules flag and whatever the mirror's `module`
field holds. -/
theorem c10_get_module_type_array_null (u : Bool) (m : Option Nat) :
    get_module u (some (ClassMirror.klassM (Klass.typeArrayK m))) = none := by
  cases u <;> rfl

end Modules
